import Mathlib

/-!
Verification of the Road Workers Connect support/welcome bot service
(`support_bot_api.py`) against its specification.

The pure string logic (classifier, help responders) is embedded directly.
Side effects are made explicit:
  * scheduling the background issue email and invoking a responder become
    entries of an event trace returned next to the reply;
  * the two outbound HTTP calls of the welcome flow are modelled by an
    environment `WelcomeEnv` giving each call's outcome (`Except.error code`
    models a non-2xx response, on which `raise_for_status` raises), and the
    calls actually issued are recorded in a trace of `WelcomeCall`s;
  * the `try/except` at each endpoint is modelled by a `crash` oracle:
    `crash = true` means the body raised an exception.
-/

/-- Python's substring test `needle in hay` on lists of characters:
true iff `needle` occurs contiguously inside `hay`. -/
def hasSubstr (needle : List Char) : List Char → Bool
  | [] => needle.isEmpty
  | c :: rest => needle.isPrefixOf (c :: rest) || hasSubstr needle rest

/-- Python's `needle in hay` for strings. -/
def pyIn (needle hay : String) : Bool :=
  hasSubstr needle.data hay.data

/-- Python's `message.lower()`: lower-case every character (kernel-reducible
counterpart of `String.toLower`, which maps `Char.toLower` over the string). -/
def pyLower (s : String) : String :=
  ⟨s.data.map Char.toLower⟩

/-- The `context` field: pydantic `Literal["jobs", "classifieds"]`. -/
inductive SupportContext where
  | jobs
  | classifieds
deriving DecidableEq

/-- Model `SupportBotRequest` (pydantic): optional userId, message, context. -/
structure SupportBotRequest where
  userId : Option String := none
  message : String
  context : SupportContext
deriving DecidableEq

/-- Model `SupportBotReply` (pydantic) with the source's field defaults. -/
structure SupportBotReply where
  role : String := "bot"
  name : String := "Road Workers Connect Support Bot"
  reply : String
  followUpQuestions : Option (List String) := none
  issueReported : Bool := false
deriving DecidableEq

/-- Model `WelcomeRequest` (pydantic): the new user's id. -/
structure WelcomeRequest where
  userId : String
deriving DecidableEq

/-- The trigger list of `looks_like_environment_issue`. -/
def triggers : List String :=
  [ "not loading",
    "spinner",
    "crash",
    "error",
    "404",
    "500",
    "502",
    "cannot connect",
    "connection problem",
    "network issue",
    "link not working",
    "broken link",
    "app froze",
    "white screen" ]

/-- Classifier `looks_like_environment_issue`: any trigger occurs in the lower-cased
message. -/
def looks_like_environment_issue (message : String) : Bool :=
  let lower := pyLower message
  triggers.any (fun t => pyIn t lower)

/-- Jobs posting-instructions reply text (`build_jobs_help`, first branch). -/
def jobsPostReplyText : String :=
  "To post a job, tap “Post a Job”, fill in job title, location, pay range, any required certifications, and shift details. When you save, your listing appears on the Job Board."

/-- Jobs posting follow-up questions. -/
def jobsFollowUps : List String :=
  [ "Do you want help with the job title or description?",
    "Is this a short call-out or a longer-term position?" ]

/-- Jobs edit-instructions reply text. -/
def jobsEditReplyText : String :=
  "To edit a job, open your job post, choose “Edit”, adjust the details, and save. The Job Board updates automatically."

/-- Jobs removal-instructions reply text. -/
def jobsDeleteReplyText : String :=
  "To remove a job, open the post and choose “Delete”. Once removed, it will no longer appear on the Job Board."

/-- Generic jobs menu reply text. -/
def jobsMenuReplyText : String :=
  "I can help you create, edit, or remove job posts. Tell me if you’re posting a new job, updating one, or taking one down."

/-- Classifieds posting-instructions reply text. -/
def classifiedsPostReplyText : String :=
  "To post an item for sale, tap “New Classified”, add photos, a clear title, condition, price, and pickup or delivery details. When you publish, it appears in the Classifieds feed."

/-- Classifieds posting follow-up questions. -/
def classifiedsFollowUps : List String :=
  [ "Are you listing tools, PPE, or heavy equipment?",
    "Do you want advice on pricing or description?" ]

/-- Classifieds mark-as-sold reply text. -/
def classifiedsSoldReplyText : String :=
  "To mark an item as sold, open your classified post and tap “Mark as Sold”. Other users will see that it is no longer available."

/-- Generic classifieds menu reply text. -/
def classifiedsMenuReplyText : String :=
  "I can walk you through posting items for sale, editing listings, or marking them as sold. What are you trying to do?"

/-- The fixed issue-acknowledged apology text (`handle_support_message`,
classifier branch). -/
def issueReplyText : String :=
  "I’m Road Workers Connect Support Bot. It looks like you’re running into a technical problem. We’re aware of the problem you’re having and we will address it immediately. If it continues, you can also email info@superiorllc.org."

/-- The catch-all apology text of `support_bot_endpoint`'s except clause. -/
def catchAllReplyText : String :=
  "I’m Road Workers Connect Support Bot. Something went wrong on our side. We’re aware of the problem you’re having and we will address it immediately."

/-- Responder `build_jobs_help`: ordered keyword rules over the lower-cased message,
first match wins (the Python early returns become an if-else chain). -/
def build_jobs_help (message : String) : SupportBotReply :=
  let lower := pyLower message
  if pyIn "post" lower && pyIn "job" lower then
    { reply := jobsPostReplyText, followUpQuestions := some jobsFollowUps }
  else if pyIn "edit" lower || pyIn "update" lower then
    { reply := jobsEditReplyText }
  else if pyIn "delete" lower || pyIn "remove" lower then
    { reply := jobsDeleteReplyText }
  else
    { reply := jobsMenuReplyText }

/-- Responder `build_classifieds_help`: ordered keyword rules, first match wins. -/
def build_classifieds_help (message : String) : SupportBotReply :=
  let lower := pyLower message
  if pyIn "post" lower &&
      (["item", "equipment", "tool", "tools"].any fun w => pyIn w lower) then
    { reply := classifiedsPostReplyText,
      followUpQuestions := some classifiedsFollowUps }
  else if pyIn "mark" lower && pyIn "sold" lower then
    { reply := classifiedsSoldReplyText }
  else
    { reply := classifiedsMenuReplyText }

/-- Observable effects of handling a support request: scheduling the
background issue email, or invoking one of the help responders. -/
inductive SupportEvent where
  | scheduledIssueEmail (req : SupportBotRequest)
  | invokedJobsHelp (message : String)
  | invokedClassifiedsHelp (message : String)
deriving DecidableEq

/-- Handler `handle_support_message`: classifier first; on a match, schedule the
issue email as a background task and return the fixed issue reply; otherwise
dispatch on the context to a help responder.  The second component is the
trace of effects/calls of the run. -/
def handle_support_message (req : SupportBotRequest) :
    SupportBotReply × List SupportEvent :=
  if looks_like_environment_issue req.message then
    ({ reply := issueReplyText, issueReported := true },
     [SupportEvent.scheduledIssueEmail req])
  else if req.context = SupportContext.jobs then
    (build_jobs_help req.message, [SupportEvent.invokedJobsHelp req.message])
  else
    (build_classifieds_help req.message,
     [SupportEvent.invokedClassifiedsHelp req.message])

/-- The try block of `support_bot_endpoint`: `crash = true` models an
exception raised during classification or response building, in which case
no reply is produced and no effect happens. -/
def run_handler (req : SupportBotRequest) (crash : Bool) :
    Except String (SupportBotReply × List SupportEvent) :=
  if crash then Except.error "exception during handling"
  else Except.ok (handle_support_message req)

/-- Endpoint `support_bot_endpoint`: returns the handler's reply, or on an exception
the catch-all apology with `issueReported = True`; it never propagates an
error (the return type carries no error case). -/
def support_bot_endpoint (req : SupportBotRequest) (crash : Bool) :
    SupportBotReply × List SupportEvent :=
  match run_handler req crash with
  | Except.ok out => out
  | Except.error _ => ({ reply := catchAllReplyText, issueReported := true }, [])

/-- How the context renders in the f-string of the issue email. -/
def SupportContext.toStr : SupportContext → String
  | SupportContext.jobs => "jobs"
  | SupportContext.classifieds => "classifieds"

/-- Python expression `req.userId or 'unknown / guest'`: `or` takes the fallback on a
falsy (absent or empty) id. -/
def userIdOrGuest (userId : Option String) : String :=
  match userId with
  | none => "unknown / guest"
  | some u => if u.isEmpty then "unknown / guest" else u

/-- The plain-text body composed by `send_issue_email_sync`
(`"\n".join(text_lines)`). -/
def issue_email_text (req : SupportBotRequest) : String :=
  "Support issue reported from Road Workers Connect:\n\nContext: "
    ++ req.context.toStr
    ++ "\nUser ID: " ++ userIdOrGuest req.userId
    ++ "\n\nUser message:\n" ++ req.message

/-- The outbound HTTP calls the welcome flow can issue. -/
inductive WelcomeCall where
  | getUsers
  | postMessage (sender recipient content : String) (isBotGenerated : Bool)
deriving DecidableEq

/-- Outcomes of the two external calls: `Except.error code` models a non-2xx
status (on which `raise_for_status` raises); a successful lookup yields the
list of returned rows (their `id` fields, at most one row due to `limit 1`). -/
structure WelcomeEnv where
  lookupResult : Except Nat (List String)
  insertResult : Except Nat Unit

/-- Lookup `get_moderator_bot_id`: issues the users GET; raises on non-2xx; returns
`None` when the result set is empty (`if not data`), else the first row's id.
The second component records the calls issued. -/
def get_moderator_bot_id (env : WelcomeEnv) :
    Except Nat (Option String) × List WelcomeCall :=
  match env.lookupResult with
  | Except.error code => (Except.error code, [WelcomeCall.getUsers])
  | Except.ok rows => (Except.ok rows.head?, [WelcomeCall.getUsers])

/-- Text returned by `build_welcome_message_text`. -/
def build_welcome_message_text : String :=
  "Welcome to Road Workers Connect. This space is for road crews, contractors, and industry pros to trade jobs, gear, and good information.\n\nKeep it professional, avoid spam, and stay focused on real work. If you need help posting jobs or items for sale, tap the Support button and the Support Bot will walk you through it.\n\nStay safe out there."

/-- Operation `send_welcome_dm`: look up the moderator; on a falsy id (`if not
moderator_id`: no row, or an empty id string) log and return without the
insert; otherwise POST the message row and raise on non-2xx. -/
def send_welcome_dm (new_user_id : String) (env : WelcomeEnv) :
    Except Nat Unit × List WelcomeCall :=
  match get_moderator_bot_id env with
  | (Except.error code, calls) => (Except.error code, calls)
  | (Except.ok none, calls) => (Except.ok (), calls)
  | (Except.ok (some mid), calls) =>
      if mid.isEmpty then (Except.ok (), calls)
      else
        match env.insertResult with
        | Except.error code =>
            (Except.error code,
             calls ++ [WelcomeCall.postMessage mid new_user_id
                         build_welcome_message_text true])
        | Except.ok _ =>
            (Except.ok (),
             calls ++ [WelcomeCall.postMessage mid new_user_id
                         build_welcome_message_text true])

/-- The JSON bodies `welcome_message_endpoint` can return. -/
inductive WelcomeResponse where
  | ok
  | err (message : String)
deriving DecidableEq

/-- Endpoint `welcome_message_endpoint`: validation guard (`if not req.userId`), then
`send_welcome_dm` inside try/except; any exception becomes the generic
failure body. -/
def welcome_message_endpoint (req : WelcomeRequest) (env : WelcomeEnv) :
    WelcomeResponse × List WelcomeCall :=
  if req.userId.isEmpty then
    (WelcomeResponse.err "userId is required", [])
  else
    match send_welcome_dm req.userId env with
    | (Except.ok _, calls) => (WelcomeResponse.ok, calls)
    | (Except.error _, calls) =>
        (WelcomeResponse.err "failed to send welcome message", calls)

/-- Claim C1: `looks_like_environment_issue` returns true iff the lower-cased
message contains at least one of the fourteen fixed trigger substrings; it is
a pure Lean function, hence side-effect free. -/
theorem claim_C1 (m : String) :
    looks_like_environment_issue m = true ↔
      ∃ t ∈ ([ "not loading", "spinner", "crash", "error", "404", "500",
               "502", "cannot connect", "connection problem", "network issue",
               "link not working", "broken link", "app froze",
               "white screen" ] : List String),
        pyIn t (pyLower m) = true := by
  simp [looks_like_environment_issue, triggers, List.any_eq_true]

/-- Every branch of `build_jobs_help` leaves `issueReported` at its default
`False`. -/
theorem build_jobs_help_issueReported (m : String) :
    (build_jobs_help m).issueReported = false := by
  simp only [build_jobs_help]
  repeat' split
  all_goals rfl

/-- Every branch of `build_classifieds_help` leaves `issueReported` at its
default `False`. -/
theorem build_classifieds_help_issueReported (m : String) :
    (build_classifieds_help m).issueReported = false := by
  simp only [build_classifieds_help]
  repeat' split
  all_goals rfl

/-- Responder `build_jobs_help` populates `followUpQuestions` exactly in its first
(posting) branch. -/
theorem build_jobs_help_followUps (m : String) :
    (build_jobs_help m).followUpQuestions =
      if pyIn "post" (pyLower m) && pyIn "job" (pyLower m) then
        some jobsFollowUps
      else none := by
  cases hp : pyIn "post" (pyLower m) <;>
  cases hj : pyIn "job" (pyLower m) <;>
  cases he : pyIn "edit" (pyLower m) <;>
  cases hu : pyIn "update" (pyLower m) <;>
  cases hd : pyIn "delete" (pyLower m) <;>
  cases hr : pyIn "remove" (pyLower m) <;>
    simp [build_jobs_help, hp, hj, he, hu, hd, hr]

/-- Responder `build_classifieds_help` populates `followUpQuestions` exactly in its
first (posting) branch. -/
theorem build_classifieds_help_followUps (m : String) :
    (build_classifieds_help m).followUpQuestions =
      if pyIn "post" (pyLower m) &&
          (pyIn "item" (pyLower m) || pyIn "equipment" (pyLower m) ||
           pyIn "tool" (pyLower m) || pyIn "tools" (pyLower m)) then
        some classifiedsFollowUps
      else none := by
  cases hp : pyIn "post" (pyLower m) <;>
  cases hi : pyIn "item" (pyLower m) <;>
  cases he : pyIn "equipment" (pyLower m) <;>
  cases ht : pyIn "tool" (pyLower m) <;>
  cases hts : pyIn "tools" (pyLower m) <;>
  cases hm : pyIn "mark" (pyLower m) <;>
  cases hs : pyIn "sold" (pyLower m) <;>
    simp [build_classifieds_help, hp, hi, he, ht, hts, hm, hs]

/-- With no exception, the endpoint just runs the handler. -/
theorem support_bot_endpoint_no_crash (req : SupportBotRequest) :
    support_bot_endpoint req false = handle_support_message req := rfl

/-- When the moderator lookup succeeds with zero rows, `send_welcome_dm`
returns normally having issued only the users GET. -/
theorem send_welcome_dm_no_moderator (uid : String) (env : WelcomeEnv)
    (h : env.lookupResult = Except.ok []) :
    send_welcome_dm uid env = (Except.ok (), [WelcomeCall.getUsers]) := by
  have hmod : get_moderator_bot_id env =
      (Except.ok none, [WelcomeCall.getUsers]) := by
    unfold get_moderator_bot_id
    rw [h]
    rfl
  unfold send_welcome_dm
  rw [hmod]

/-- Claim C2: both responders apply their ordered keyword rules with first
match winning, over case-insensitive substring search: jobs checks
post∧job, then edit∨update, then delete∨remove, then the generic menu;
classifieds checks post∧(item∨equipment∨tool∨tools), then mark∧sold, then
the generic menu; the two posting branches carry the two follow-up
questions. -/
theorem claim_C2 (m : String) :
    (build_jobs_help m =
      if pyIn "post" (pyLower m) && pyIn "job" (pyLower m) then
        { reply := jobsPostReplyText, followUpQuestions := some jobsFollowUps }
      else if pyIn "edit" (pyLower m) || pyIn "update" (pyLower m) then
        { reply := jobsEditReplyText }
      else if pyIn "delete" (pyLower m) || pyIn "remove" (pyLower m) then
        { reply := jobsDeleteReplyText }
      else
        { reply := jobsMenuReplyText }) ∧
    (build_classifieds_help m =
      if pyIn "post" (pyLower m) &&
          (pyIn "item" (pyLower m) || pyIn "equipment" (pyLower m) ||
           pyIn "tool" (pyLower m) || pyIn "tools" (pyLower m)) then
        { reply := classifiedsPostReplyText,
          followUpQuestions := some classifiedsFollowUps }
      else if pyIn "mark" (pyLower m) && pyIn "sold" (pyLower m) then
        { reply := classifiedsSoldReplyText }
      else
        { reply := classifiedsMenuReplyText }) := by
  constructor
  · rfl
  · unfold build_classifieds_help
    simp only [List.any_cons, List.any_nil, Bool.or_false, Bool.or_assoc]

/-- Claim C3: when the classifier matches, the handler returns the fixed
issue reply with `issueReported = True`, the only effect is scheduling the
issue email, and neither help responder is invoked. -/
theorem claim_C3 (req : SupportBotRequest)
    (h : looks_like_environment_issue req.message = true) :
    handle_support_message req =
      ({ reply := issueReplyText, issueReported := true },
       [SupportEvent.scheduledIssueEmail req]) ∧
    (handle_support_message req).1.issueReported = true ∧
    (∀ m, SupportEvent.invokedJobsHelp m ∉ (handle_support_message req).2) ∧
    (∀ m, SupportEvent.invokedClassifiedsHelp m ∉
      (handle_support_message req).2) := by
  unfold handle_support_message
  simp [h]

/-- Witness for C3 at the spec's own example message. -/
theorem claim_C3_witness :
    handle_support_message
        { userId := some "u1", message := "My app keeps CRASHing",
          context := SupportContext.jobs } =
      ({ reply := issueReplyText, issueReported := true },
       [SupportEvent.scheduledIssueEmail
          { userId := some "u1", message := "My app keeps CRASHing",
            context := SupportContext.jobs }]) :=
  (claim_C3 _ (by decide)).1

/-- Counterexample to C4 as stated: when an exception occurs during handling
(`crash = true`), the endpoint's reply has `issueReported = True` yet its
text is the catch-all apology, not the issue-acknowledged message, and no
issue email was scheduled. -/
theorem claim_C4_counterexample :
    (support_bot_endpoint
        { userId := none, message := "hello", context := SupportContext.jobs }
        true).1.issueReported = true ∧
    ¬ ((support_bot_endpoint
          { userId := none, message := "hello", context := SupportContext.jobs }
          true).1.reply = issueReplyText ∧
       SupportEvent.scheduledIssueEmail
          { userId := none, message := "hello", context := SupportContext.jobs } ∈
         (support_bot_endpoint
            { userId := none, message := "hello", context := SupportContext.jobs }
            true).2) := by
  decide

/-- Claim C4 (amended): a reply of the /support-bot endpoint with
`issueReported = True` is either the issue-acknowledged reply with the issue
email scheduled, or — when handling raised an exception — the catch-all
apology with no notification scheduled. -/
theorem claim_C4_amended (req : SupportBotRequest) (crash : Bool) :
    (support_bot_endpoint req crash).1.issueReported = true →
      ((support_bot_endpoint req crash).1.reply = issueReplyText ∧
       (support_bot_endpoint req crash).2 =
         [SupportEvent.scheduledIssueEmail req]) ∨
      (crash = true ∧
       (support_bot_endpoint req crash).1.reply = catchAllReplyText ∧
       (support_bot_endpoint req crash).2 = []) := by
  cases crash with
  | true =>
      intro _
      right
      exact ⟨rfl, rfl, rfl⟩
  | false =>
      intro h
      left
      rw [support_bot_endpoint_no_crash] at h ⊢
      unfold handle_support_message at h ⊢
      by_cases hc : looks_like_environment_issue req.message = true
      · simp [hc]
      · exfalso
        simp only [hc, if_neg, Bool.false_eq_true] at h
        cases hctx : req.context with
        | jobs =>
            simp [hctx, build_jobs_help_issueReported] at h
        | classifieds =>
            simp [hctx, build_classifieds_help_issueReported] at h

/-- Witness for the amended C4 at a crashing request. -/
theorem claim_C4_witness :
    ((support_bot_endpoint
        { userId := none, message := "hi", context := SupportContext.jobs }
        true).1.reply = issueReplyText ∧
     (support_bot_endpoint
        { userId := none, message := "hi", context := SupportContext.jobs }
        true).2 =
       [SupportEvent.scheduledIssueEmail
          { userId := none, message := "hi", context := SupportContext.jobs }]) ∨
    (true = true ∧
     (support_bot_endpoint
        { userId := none, message := "hi", context := SupportContext.jobs }
        true).1.reply = catchAllReplyText ∧
     (support_bot_endpoint
        { userId := none, message := "hi", context := SupportContext.jobs }
        true).2 = []) :=
  claim_C4_amended _ true (by decide)

/-- Claim C5: the endpoint is total — it always produces a reply — and
whenever the handler raises (`run_handler` yields an error), the reply is
the generic catch-all apology with `issueReported = True`; no HTTP error is
ever returned (the return type has no error case). -/
theorem claim_C5 (req : SupportBotRequest) (crash : Bool) :
    (∃ reply evts, support_bot_endpoint req crash = (reply, evts)) ∧
    (∀ e, run_handler req crash = Except.error e →
      support_bot_endpoint req crash =
        ({ reply := catchAllReplyText, issueReported := true }, []) ∧
      (support_bot_endpoint req crash).1.issueReported = true) := by
  refine ⟨⟨_, _, rfl⟩, ?_⟩
  intro e h
  have heq : support_bot_endpoint req crash =
      ({ reply := catchAllReplyText, issueReported := true }, []) := by
    unfold support_bot_endpoint
    rw [h]
  exact ⟨heq, by rw [heq]⟩

/-- Witness for C5 at a crashing request. -/
theorem claim_C5_witness :
    support_bot_endpoint
        { userId := none, message := "how to post",
          context := SupportContext.classifieds } true =
      ({ reply := catchAllReplyText, issueReported := true }, []) :=
  ((claim_C5 _ true).2 "exception during handling" rfl).1

/-- Claim C6: when the moderator lookup returns zero rows, `send_welcome_dm`
returns after the lookup and no insert POST to the message store is issued. -/
theorem claim_C6 (uid : String) (env : WelcomeEnv)
    (h : env.lookupResult = Except.ok []) :
    (send_welcome_dm uid env).2 = [WelcomeCall.getUsers] ∧
    ∀ s r c b, WelcomeCall.postMessage s r c b ∉ (send_welcome_dm uid env).2 := by
  rw [send_welcome_dm_no_moderator uid env h]
  refine ⟨rfl, ?_⟩
  intro s r c b hb
  simp at hb

/-- Witness for C6: an environment whose lookup succeeds with zero rows. -/
theorem claim_C6_witness :
    (send_welcome_dm "new-user"
        { lookupResult := Except.ok [], insertResult := Except.ok () }).2 =
      [WelcomeCall.getUsers] :=
  (claim_C6 "new-user" _ rfl).1

/-- Counterexample to C7 as stated: with a lookup that succeeds and returns
no account, the endpoint's body is `WelcomeResponse.ok` — it reports
success, not failure. -/
theorem claim_C7_counterexample :
    (welcome_message_endpoint { userId := "new-user-1" }
        { lookupResult := Except.ok [], insertResult := Except.ok () }).1 =
      WelcomeResponse.ok ∧
    WelcomeResponse.ok ≠ WelcomeResponse.err "failed to send welcome message" := by
  decide

/-- Claim C7 (amended): when the moderator lookup succeeds but returns no
account, `send_welcome_dm` skips the insert and returns without raising, so
the endpoint reports success (`{"status": "ok"}`) to the caller. -/
theorem claim_C7_amended (uid : String) (env : WelcomeEnv)
    (h1 : uid.isEmpty = false) (h2 : env.lookupResult = Except.ok []) :
    welcome_message_endpoint { userId := uid } env =
      (WelcomeResponse.ok, [WelcomeCall.getUsers]) := by
  unfold welcome_message_endpoint
  simp [h1, send_welcome_dm_no_moderator uid env h2]

/-- Witness for the amended C7. -/
theorem claim_C7_witness :
    welcome_message_endpoint { userId := "new-user-2" }
        { lookupResult := Except.ok [], insertResult := Except.ok () } =
      (WelcomeResponse.ok, [WelcomeCall.getUsers]) :=
  claim_C7_amended "new-user-2" _ (by decide) rfl

/-- Claim C8: a request with a missing (falsy) userId yields exactly the
`{"status": "error", "message": "userId is required"}` body, and no external
call is issued (the call trace is empty). -/
theorem claim_C8 (req : WelcomeRequest) (env : WelcomeEnv)
    (h : req.userId = "") :
    welcome_message_endpoint req env =
      (WelcomeResponse.err "userId is required", []) := by
  unfold welcome_message_endpoint
  rw [h]
  rfl

/-- Witness for C8. -/
theorem claim_C8_witness :
    welcome_message_endpoint { userId := "" }
        { lookupResult := Except.ok ["mod-1"], insertResult := Except.ok () } =
      (WelcomeResponse.err "userId is required", []) :=
  claim_C8 _ _ rfl

/-- Claim C9: a non-2xx status from either external call raises, the
exception propagates out of `send_welcome_dm`, and the endpoint's except
clause turns it into the `{"status": "error", message}` body. -/
theorem claim_C9 (req : WelcomeRequest) (env : WelcomeEnv)
    (h0 : req.userId.isEmpty = false) :
    (∀ code, env.lookupResult = Except.error code →
      welcome_message_endpoint req env =
        (WelcomeResponse.err "failed to send welcome message",
         [WelcomeCall.getUsers])) ∧
    (∀ code mid rows, env.lookupResult = Except.ok (mid :: rows) →
      mid.isEmpty = false → env.insertResult = Except.error code →
      welcome_message_endpoint req env =
        (WelcomeResponse.err "failed to send welcome message",
         [WelcomeCall.getUsers,
          WelcomeCall.postMessage mid req.userId
            build_welcome_message_text true])) := by
  constructor
  · intro code hl
    have hsend : send_welcome_dm req.userId env =
        (Except.error code, [WelcomeCall.getUsers]) := by
      unfold send_welcome_dm get_moderator_bot_id
      rw [hl]
    unfold welcome_message_endpoint
    simp [h0, hsend]
  · intro code mid rows hl hm hi
    have hsend : send_welcome_dm req.userId env =
        (Except.error code,
         [WelcomeCall.getUsers,
          WelcomeCall.postMessage mid req.userId
            build_welcome_message_text true]) := by
      unfold send_welcome_dm get_moderator_bot_id
      rw [hl, hi]
      simp [hm]
    unfold welcome_message_endpoint
    simp [h0, hsend]

/-- Witness for C9: a lookup failing with status 500. -/
theorem claim_C9_witness :
    welcome_message_endpoint { userId := "u2" }
        { lookupResult := Except.error 500, insertResult := Except.ok () } =
      (WelcomeResponse.err "failed to send welcome message",
       [WelcomeCall.getUsers]) :=
  (claim_C9 _ _ (by decide)).1 500 rfl

/-- Claim C10: every reply of the /support-bot endpoint has
`followUpQuestions` either absent or one of the two fixed two-question
lists; when present, the run did not crash, the classifier did not match,
and the reply came from the matching posting branch (jobs post∧job, or
classifieds post∧item-word); every other branch — including the issue reply
and the catch-all apology — leaves it absent. -/
theorem claim_C10 (req : SupportBotRequest) (crash : Bool) :
    ((support_bot_endpoint req crash).1.followUpQuestions = none ∨
     (support_bot_endpoint req crash).1.followUpQuestions =
       some jobsFollowUps ∨
     (support_bot_endpoint req crash).1.followUpQuestions =
       some classifiedsFollowUps) ∧
    (∀ qs, (support_bot_endpoint req crash).1.followUpQuestions = some qs →
      qs.length = 2) ∧
    ((support_bot_endpoint req crash).1.followUpQuestions ≠ none →
      crash = false ∧
      looks_like_environment_issue req.message = false ∧
      ((req.context = SupportContext.jobs ∧
        pyIn "post" (pyLower req.message) = true ∧
        pyIn "job" (pyLower req.message) = true ∧
        (support_bot_endpoint req crash).1.followUpQuestions =
          some jobsFollowUps) ∨
       (req.context = SupportContext.classifieds ∧
        pyIn "post" (pyLower req.message) = true ∧
        (pyIn "item" (pyLower req.message) ||
         pyIn "equipment" (pyLower req.message) ||
         pyIn "tool" (pyLower req.message) ||
         pyIn "tools" (pyLower req.message)) = true ∧
        (support_bot_endpoint req crash).1.followUpQuestions =
          some classifiedsFollowUps))) := by
  cases crash with
  | true =>
      refine ⟨Or.inl rfl, ?_, ?_⟩
      · intro qs h
        exact Option.noConfusion h
      · intro h
        exact absurd rfl h
  | false =>
      by_cases hc : looks_like_environment_issue req.message = true
      · have hf : (support_bot_endpoint req false).1.followUpQuestions = none := by
          rw [support_bot_endpoint_no_crash]
          unfold handle_support_message
          simp [hc]
        refine ⟨Or.inl hf, ?_, ?_⟩
        · intro qs h
          rw [hf] at h
          exact Option.noConfusion h
        · intro h
          exact absurd hf h
      · have hcf : looks_like_environment_issue req.message = false := by
          simpa using hc
        cases hctx : req.context with
        | jobs =>
            have hres : (support_bot_endpoint req false).1 =
                build_jobs_help req.message := by
              rw [support_bot_endpoint_no_crash]
              unfold handle_support_message
              simp [hcf, hctx]
            by_cases hp : (pyIn "post" (pyLower req.message) &&
                pyIn "job" (pyLower req.message)) = true
            · have hf : (support_bot_endpoint req false).1.followUpQuestions =
                  some jobsFollowUps := by
                rw [hres, build_jobs_help_followUps, if_pos hp]
              rw [Bool.and_eq_true] at hp
              obtain ⟨hp1, hp2⟩ := hp
              refine ⟨Or.inr (Or.inl hf), ?_, ?_⟩
              · intro qs h
                rw [hf] at h
                injection h with h2
                rw [← h2]
                rfl
              · intro _
                exact ⟨rfl, hcf, Or.inl ⟨rfl, hp1, hp2, hf⟩⟩
            · have hf : (support_bot_endpoint req false).1.followUpQuestions =
                  none := by
                rw [hres, build_jobs_help_followUps, if_neg hp]
              refine ⟨Or.inl hf, ?_, ?_⟩
              · intro qs h
                rw [hf] at h
                exact Option.noConfusion h
              · intro h
                exact absurd hf h
        | classifieds =>
            have hres : (support_bot_endpoint req false).1 =
                build_classifieds_help req.message := by
              rw [support_bot_endpoint_no_crash]
              unfold handle_support_message
              simp [hcf, hctx]
            by_cases hp : (pyIn "post" (pyLower req.message) &&
                (pyIn "item" (pyLower req.message) ||
                 pyIn "equipment" (pyLower req.message) ||
                 pyIn "tool" (pyLower req.message) ||
                 pyIn "tools" (pyLower req.message))) = true
            · have hf : (support_bot_endpoint req false).1.followUpQuestions =
                  some classifiedsFollowUps := by
                rw [hres, build_classifieds_help_followUps, if_pos hp]
              rw [Bool.and_eq_true] at hp
              obtain ⟨hp1, hp2⟩ := hp
              refine ⟨Or.inr (Or.inr hf), ?_, ?_⟩
              · intro qs h
                rw [hf] at h
                injection h with h2
                rw [← h2]
                rfl
              · intro _
                exact ⟨rfl, hcf, Or.inr ⟨rfl, hp1, hp2, hf⟩⟩
            · have hf : (support_bot_endpoint req false).1.followUpQuestions =
                  none := by
                rw [hres, build_classifieds_help_followUps, if_neg hp]
              refine ⟨Or.inl hf, ?_, ?_⟩
              · intro qs h
                rw [hf] at h
                exact Option.noConfusion h
              · intro h
                exact absurd hf h

/-- Witness for C10 at the spec's jobs posting example. -/
theorem claim_C10_witness :
    false = false ∧
    looks_like_environment_issue "How do I post a job?" = false ∧
    ((SupportContext.jobs = SupportContext.jobs ∧
      pyIn "post" (pyLower "How do I post a job?") = true ∧
      pyIn "job" (pyLower "How do I post a job?") = true ∧
      (support_bot_endpoint
          { userId := none, message := "How do I post a job?",
            context := SupportContext.jobs } false).1.followUpQuestions =
        some jobsFollowUps) ∨
     (SupportContext.jobs = SupportContext.classifieds ∧
      pyIn "post" (pyLower "How do I post a job?") = true ∧
      (pyIn "item" (pyLower "How do I post a job?") ||
       pyIn "equipment" (pyLower "How do I post a job?") ||
       pyIn "tool" (pyLower "How do I post a job?") ||
       pyIn "tools" (pyLower "How do I post a job?")) = true ∧
      (support_bot_endpoint
          { userId := none, message := "How do I post a job?",
            context := SupportContext.jobs } false).1.followUpQuestions =
        some classifiedsFollowUps)) :=
  (claim_C10
    { userId := none, message := "How do I post a job?",
      context := SupportContext.jobs } false).2.2 (by decide)
